import Mathlib

/-!
Verification of the nitro daemon's control plane against its specification.

The definitions below are a shallow embedding of the Go sources:
* `Service.Apply`, `Service.AddDatabase`, `Service.RemoveDatabase`,
  `Service.ImportDatabase` and `Service.exec` from the gRPC API service
  (package `api`);
* `proxycontainer.Create` and `proxycontainer.FindAndStart` from
  `pkg/proxycontainer/proxycontainer.go`.

External collaborators (the Docker engine, the Caddy admin endpoint, the
`portavail` prober, the `database` tool finder and importer, the local
filesystem) are modelled as environment records supplying the results the
Go code would observe; each embedded function additionally returns the
trace of calls it made to those collaborators, so that "no process is
launched" and "no container is deleted" are statable.
-/

namespace Nitro

/-! ## Caddy configuration document (package `caddy`, as used by `Service.Apply`) -/

/-- `caddy.Upstream`: one reverse-proxy upstream. -/
structure Upstream where
  dial : String
deriving DecidableEq, Repr

/-- `caddy.RouteHandle`: one handler in a route. Fields not set by the Go
code keep their zero values. -/
structure RouteHandle where
  handler : String
  upstreams : List Upstream := []
  root : String := ""
  hide : List String := []
deriving DecidableEq, Repr

/-- `caddy.Match`: a match predicate on the request host. -/
structure HostMatch where
  host : List String
deriving DecidableEq, Repr

/-- `caddy.ServerRoute`: one match/handle rule of a virtual server.
The Go field `Match` is rendered `matchers` (`match` is reserved). -/
structure ServerRoute where
  handle : List RouteHandle
  matchers : List HostMatch := []
  terminal : Bool
deriving DecidableEq, Repr

/-- `caddy.Server`: one virtual server (listen addresses plus ordered routes). -/
structure Server where
  listen : List String
  routes : List ServerRoute
deriving DecidableEq, Repr

/-- `caddy.UpdateRequest`: the document POSTed to the Caddy admin endpoint,
holding exactly the two virtual servers. -/
structure UpdateRequest where
  https : Server
  http : Server
deriving DecidableEq, Repr

/-! ## Sites

Modelled from the spec: `protob.ApplyRequest` (generated gRPC code, not part
of the sources here) carries the sites of one reconciliation batch.  Per the
spec's data model a batch is an ordered list of
`Site {hostname, aliases (comma-joined), port, upstreamKey}` where
`upstreamKey` is the key `k` the Go loop `for k, site := range
request.GetSites()` pairs with each site. -/
structure Site where
  upstreamKey : String
  hostname : String
  aliases : String
  port : Nat
deriving DecidableEq, Repr

/-- The host list of a site's route: the hostname, followed by the
comma-split aliases when the alias string is nonempty
(`Service.Apply`, the `hosts` computation). -/
def siteHosts (site : Site) : List String :=
  if site.aliases ≠ "" then [site.hostname] ++ site.aliases.splitOn ","
  else [site.hostname]

/-- The route `Service.Apply` builds for one site: a terminal
reverse-proxy route matching the site's hosts, dialing `upstreamKey:port`. -/
def siteRoute (site : Site) : ServerRoute :=
  { handle := [{ handler := "reverse_proxy",
                 upstreams := [{ dial := site.upstreamKey ++ ":" ++ toString site.port }] }],
    matchers := [{ host := siteHosts site }],
    terminal := true }

/-- The route-collection loop of `Service.Apply`: starting from the empty
slice, append one route per site, in input order. -/
def applyRoutes (sites : List Site) : List ServerRoute :=
  sites.foldl (fun acc site => acc ++ [siteRoute site]) []

/-- The fallback static file-server route `Service.Apply` appends to the
HTTP server (the default welcome server). -/
def fallbackRoute : ServerRoute :=
  { handle := [{ handler := "vars", root := "/var/www/html" },
               { handler := "file_server", root := "/var/www/html",
                 hide := ["/etc/caddy/Caddyfile"] }],
    matchers := [],
    terminal := true }

/-- The configuration document `Service.Apply` builds: the HTTPS server on
`:443` with the site routes, and the HTTP server on `:80` with the same
routes plus the appended fallback route. -/
def applyUpdate (sites : List Site) : UpdateRequest :=
  { https := { listen := [":443"], routes := applyRoutes sites },
    http := { listen := [":80"], routes := applyRoutes sites ++ [fallbackRoute] } }

/-- `protob.ApplyResponse`. -/
structure ApplyResponse where
  message : String
  error : Bool
deriving DecidableEq, Repr

/-- The pair `(*protob.ApplyResponse, error)` returned by `Service.Apply`:
`transportErr` is the non-nil Go `error` of a failed POST, `none` otherwise. -/
structure ApplyResult where
  resp : Option ApplyResponse
  transportErr : Option String
deriving DecidableEq, Repr

/-- The outcome the HTTP client reports for the POST of the document:
either a transport-level error or a status code. -/
def PostOutcome := Except String Nat

/-- `Service.Apply` after the document is built: POST it; a transport error
is returned as a hard error together with an error response; a non-200
status yields an error response with a nil Go error; a 200 status yields
the success response naming the number of sites. -/
def applyService (sites : List Site) (post : PostOutcome) : ApplyResult :=
  match post with
  | .error e =>
      { resp := some { message := "Error updating Caddy API, err: " ++ e, error := true },
        transportErr := some e }
  | .ok code =>
      if code ≠ 200 then
        { resp := some { message := "Received " ++ toString code ++ " response from Caddy API",
                         error := true },
          transportErr := none }
      else
        { resp := some { message := "Successfully applied changes, sites: "
                           ++ toString sites.length,
                         error := false },
          transportErr := none }

/-! ### Basic facts about the route loop -/

/-- The appending fold of `Service.Apply` computes the map of `siteRoute`
over the input, in input order. -/
theorem applyRoutes_eq_map (sites : List Site) :
    applyRoutes sites = sites.map siteRoute := by
  suffices h : ∀ acc : List ServerRoute,
      sites.foldl (fun acc site => acc ++ [siteRoute site]) acc
        = acc ++ sites.map siteRoute by
    simpa [applyRoutes] using h []
  induction sites with
  | nil => intro acc; simp
  | cons s rest ih =>
      intro acc
      simp [List.foldl, ih, List.append_assoc]

theorem applyRoutes_length (sites : List Site) :
    (applyRoutes sites).length = sites.length := by
  simp [applyRoutes_eq_map]

/-- Index-wise description of the two route lists the document carries. -/
theorem routes_getElem (sites : List Site) (i : Nat) (h : i < sites.length) :
    (applyRoutes sites)[i]? = some (siteRoute (sites.get ⟨i, h⟩)) ∧
    (applyRoutes sites ++ [fallbackRoute])[i]? = some (siteRoute (sites.get ⟨i, h⟩)) := by
  have hlt : i < (sites.map siteRoute).length := by simpa using h
  constructor
  · simp [applyRoutes_eq_map, List.getElem?_eq_getElem hlt]
  · have happ : (sites.map siteRoute ++ [fallbackRoute])[i]? = (sites.map siteRoute)[i]? :=
      by rw [List.getElem?_append, if_pos hlt]
    rw [applyRoutes_eq_map, happ, List.getElem?_eq_getElem hlt]
    simp

/-- C4: in both the HTTPS and the HTTP server block of the generated
document, the route at index `i` is the route of the `i`-th input site: route
order equals input site order, so the document is a deterministic function of
the input list and first-match-wins precedence follows input order. -/
theorem apply_route_order (sites : List Site) (i : Nat) (h : i < sites.length) :
    (applyUpdate sites).https.routes[i]? = some (siteRoute (sites.get ⟨i, h⟩)) ∧
    (applyUpdate sites).http.routes[i]? = some (siteRoute (sites.get ⟨i, h⟩)) :=
  ⟨(routes_getElem sites i h).1, (routes_getElem sites i h).2⟩

/-- C4 witness: at a concrete two-site input, the routes appear in input
order in both blocks. -/
theorem apply_route_order_witness :
    (applyUpdate [⟨"a", "one.nitro", "", 8080⟩, ⟨"b", "two.nitro", "", 9000⟩]).https.routes[1]?
        = some (siteRoute ⟨"b", "two.nitro", "", 9000⟩) ∧
    (applyUpdate [⟨"a", "one.nitro", "", 8080⟩, ⟨"b", "two.nitro", "", 9000⟩]).http.routes[1]?
        = some (siteRoute ⟨"b", "two.nitro", "", 9000⟩) :=
  apply_route_order [⟨"a", "one.nitro", "", 8080⟩, ⟨"b", "two.nitro", "", 9000⟩] 1
    (by decide)

/-- C5: for a non-empty site list the document has its two server blocks
listening on `:443` and `:80`; the HTTPS block has exactly `len(sites)`
routes; the HTTP block has `len(sites)+1` routes, the last being the static
file-server fallback; and the `i`-th per-site route is terminal, matches
`Host ∈ {hostname} ∪ aliases`, and reverse-proxies to `upstreamKey:port`. -/
theorem apply_document_shape (sites : List Site) (_hne : sites ≠ []) :
    (applyUpdate sites).https.listen = [":443"] ∧
    (applyUpdate sites).http.listen = [":80"] ∧
    (applyUpdate sites).https.routes.length = sites.length ∧
    (applyUpdate sites).http.routes.length = sites.length + 1 ∧
    (applyUpdate sites).http.routes.getLast? = some fallbackRoute ∧
    ∀ i (h : i < sites.length),
      (applyUpdate sites).https.routes[i]? =
        some { handle := [{ handler := "reverse_proxy",
                            upstreams := [{ dial := (sites.get ⟨i, h⟩).upstreamKey ++ ":"
                                              ++ toString (sites.get ⟨i, h⟩).port }] }],
               matchers := [{ host := siteHosts (sites.get ⟨i, h⟩) }],
               terminal := true } := by
  refine ⟨rfl, rfl, ?_, ?_, ?_, ?_⟩
  · simp [applyUpdate, applyRoutes_length]
  · simp [applyUpdate, applyRoutes_length]
  · simp [applyUpdate]
  · intro i h
    have hel := (routes_getElem sites i h).1
    simpa [siteRoute] using hel

/-- C5 witness: the single-site example produces a route matching
`site.nitro`, proxying to `container:8080`, plus the fallback. -/
theorem apply_document_shape_witness :
    (applyUpdate [⟨"container", "site.nitro", "", 8080⟩]).https.routes.length = 1 ∧
    (applyUpdate [⟨"container", "site.nitro", "", 8080⟩]).http.routes.length = 2 ∧
    (applyUpdate [⟨"container", "site.nitro", "", 8080⟩]).http.routes.getLast?
      = some fallbackRoute ∧
    (applyUpdate [⟨"container", "site.nitro", "", 8080⟩]).https.routes[0]? =
      some { handle := [{ handler := "reverse_proxy",
                          upstreams := [{ dial := "container:8080" }] }],
             matchers := [{ host := ["site.nitro"] }],
             terminal := true } := by
  have h := apply_document_shape [⟨"container", "site.nitro", "", 8080⟩] (by decide)
  refine ⟨h.2.2.1, h.2.2.2.1, h.2.2.2.2.1, ?_⟩
  have h0 := h.2.2.2.2.2 0 (by decide)
  simpa [siteHosts] using h0

/-- C6: when the POST completes with a non-2xx status, `Apply` returns a
response with `error = true` and a human-readable message alongside a nil
transport error; when the POST itself fails, `Apply` returns a non-nil
(hard) transport error. -/
theorem apply_failure_modes (sites : List Site) :
    (∀ code : Nat, code < 200 ∨ 300 ≤ code →
       applyService sites (.ok code) =
         { resp := some { message := "Received " ++ toString code ++ " response from Caddy API",
                          error := true },
           transportErr := none }) ∧
    (∀ e : String,
       applyService sites (.error e) =
         { resp := some { message := "Error updating Caddy API, err: " ++ e, error := true },
           transportErr := some e }) := by
  constructor
  · intro code hcode
    have : code ≠ 200 := by omega
    simp [applyService, this]
  · intro e
    rfl

/-- C6 witness: a 500 status is a soft failure; a failed dial is a hard
error. -/
theorem apply_failure_modes_witness :
    applyService [] (.ok 500) =
      { resp := some { message := "Received 500 response from Caddy API", error := true },
        transportErr := none } ∧
    applyService [] (.error "connection refused") =
      { resp := some { message := "Error updating Caddy API, err: connection refused",
                       error := true },
        transportErr := some "connection refused" } :=
  ⟨(apply_failure_modes []).1 500 (Or.inr (by omega)),
   (apply_failure_modes []).2 "connection refused"⟩

/-- C10: for the empty site list the document still has both server blocks —
zero routes on the HTTPS block, exactly the terminal static fallback on the
HTTP block — and a 200 from the proxy yields `error = false` with a success
message reporting 0 sites. -/
theorem apply_empty_batch :
    (applyUpdate []).https.listen = [":443"] ∧
    (applyUpdate []).http.listen = [":80"] ∧
    (applyUpdate []).https.routes = [] ∧
    (applyUpdate []).http.routes = [fallbackRoute] ∧
    fallbackRoute.terminal = true ∧
    applyService [] (.ok 200) =
      { resp := some { message := "Successfully applied changes, sites: 0", error := false },
        transportErr := none } :=
  ⟨rfl, rfl, rfl, rfl, rfl, rfl⟩

/-! ## Database provisioning service

`Service.AddDatabase`, `Service.RemoveDatabase` and `Service.ImportDatabase`
act through three collaborators: the `portavail.Check` TCP probe, the
`database.DefaultImportToolFinder` binary lookup and `Service.exec`
(launch an external process and wait).  The collaborators' answers are
supplied by an environment record; each embedded operation returns, next to
its reply, the ordered list of external process invocations it performed. -/

/-- `protob.DatabaseInfo`: the target of a database operation. -/
structure DatabaseInfo where
  engine : String
  version : String
  hostname : String
  port : String
  database : String
  compressed : Bool := false
deriving DecidableEq, Repr

/-- One invocation of `Service.exec`: the tool binary and its argument
vector. -/
structure ExecCall where
  tool : String
  args : List String
deriving DecidableEq, Repr

/-- Environment for the unary database operations.
`portCheckErr` is the result of `portavail.Check(hostname, port)`: `none`
means the dial succeeded (no error — the port is reachable), `some e` means
the dial failed with error `e`.  `toolResult` is the result of
`database.DefaultImportToolFinder(engine, version)`.  `execErr i` is the
result of the `i`-th `Service.exec` call (`none` = clean exit). -/
structure DbEnv where
  portCheckErr : Option String
  toolResult : Except String String
  execErr : Nat → Option String

/-- A gRPC reply: either a response message or a `codes.Internal` status
error with its message. -/
inductive DbReply where
  | ok (message : String)
  | err (message : String)
deriving DecidableEq, Repr

/-- The connectivity-gate error message (`status.Errorf` with the nil probe
error rendered `<nil>` by Go's `%v`). -/
def connectivityErrMsg (hostname port : String) : String :=
  "it does not appear the database is available on host " ++ hostname
    ++ " using port " ++ port ++ ": <nil>"

/-- The mysql create command built by `Service.AddDatabase`. -/
def mysqlAddCommand (hostname db : String) : List String :=
  ["--user=nitro", "--host=" ++ hostname, "-pnitro",
   "-e CREATE DATABASE IF NOT EXISTS " ++ db ++ ";"]

/-- The default-engine (postgres) create command built by
`Service.AddDatabase`. -/
def postgresAddCommand (hostname port db : String) : List String :=
  ["--host=" ++ hostname, "--port=" ++ port, "--username=nitro",
   "-c CREATE DATABASE " ++ db ++ ";"]

/-- The mysql drop command built by `Service.RemoveDatabase`. -/
def mysqlRemoveCommand (hostname db : String) : List String :=
  ["--user=nitro", "--host=" ++ hostname, "-pnitro",
   "-e DROP DATABASE IF EXISTS " ++ db ++ ";"]

/-- The default-engine (postgres) drop command built by
`Service.RemoveDatabase`. -/
def postgresRemoveCommand (hostname port db : String) : List String :=
  ["--host=" ++ hostname, "--port=" ++ port, "--username=nitro",
   "-c DROP DATABASE IF EXISTS " ++ db ++ ";"]

/-- `Service.AddDatabase`: gate on the TCP probe (no probe error means the
operation is rejected), find the tool, build `addCommand` and — in the mysql
case — `privilegesCommand` (which the Go source assigns the same argument
vector as `addCommand`), then exec.  The second exec call in the Go source
passes `addCommand`, not `privilegesCommand`. -/
def addDatabase (req : DatabaseInfo) (env : DbEnv) : DbReply × List ExecCall :=
  match env.portCheckErr with
  | none => (.err (connectivityErrMsg req.hostname req.port), [])
  | some _ =>
    match env.toolResult with
    | .error _ => (.err "error finding the database tool", [])
    | .ok tool =>
      let addCommand :=
        if req.engine = "mysql" then mysqlAddCommand req.hostname req.database
        else postgresAddCommand req.hostname req.port req.database
      let privilegesCommand : Option (List String) :=
        if req.engine = "mysql" then some (mysqlAddCommand req.hostname req.database)
        else none
      match env.execErr 0 with
      | some e => (.err ("error creating database: " ++ e), [⟨tool, addCommand⟩])
      | none =>
        match privilegesCommand with
        | none =>
            (.ok ("Database \x22" ++ req.database ++ "\x22 added to \x22"
                    ++ req.hostname ++ "\x22 successfully"),
             [⟨tool, addCommand⟩])
        | some _ =>
            match env.execErr 1 with
            | some e =>
                (.err ("error setting privileges on database: " ++ e),
                 [⟨tool, addCommand⟩, ⟨tool, addCommand⟩])
            | none =>
                (.ok ("Database \x22" ++ req.database ++ "\x22 added to \x22"
                        ++ req.hostname ++ "\x22 successfully"),
                 [⟨tool, addCommand⟩, ⟨tool, addCommand⟩])

/-- `Service.RemoveDatabase`: gate on the TCP probe, find the tool, run the
single drop command. -/
def removeDatabase (req : DatabaseInfo) (env : DbEnv) : DbReply × List ExecCall :=
  match env.portCheckErr with
  | none => (.err (connectivityErrMsg req.hostname req.port), [])
  | some _ =>
    match env.toolResult with
    | .error _ => (.err "error finding the database tool", [])
    | .ok tool =>
      let removeCommand :=
        if req.engine = "mysql" then mysqlRemoveCommand req.hostname req.database
        else postgresRemoveCommand req.hostname req.port req.database
      match env.execErr 0 with
      | some e => (.err ("error removing database: " ++ e), [⟨tool, removeCommand⟩])
      | none =>
          (.ok ("Removed the database \x22" ++ req.database ++ "\x22 from \x22"
                  ++ req.hostname ++ "\x22 successfully"),
           [⟨tool, removeCommand⟩])

/-- The mysql privilege-grant command built by `prompt.CreateDatabase`
(the interactive CLI path in these sources), evidencing the intended grant
step: `mysql -uroot -pnitro -e "GRANT ALL PRIVILEGES ON * TO 'nitro'@'%';"`. -/
def promptMysqlPrivilegesCmd : List String :=
  ["mysql", "-uroot", "-pnitro",
   "-e GRANT ALL PRIVILEGES ON * TO \x27nitro\x27@\x27%\x27;"]

/-! ## Streamed import (`Service.ImportDatabase`) -/

/-- One `protob.ImportDatabaseRequest` stream message: database fields plus
a raw data payload (bytes as naturals). -/
structure ImportMessage where
  database : DatabaseInfo
  data : List Nat
deriving DecidableEq, Repr

/-- One `stream.Recv()` outcome inside the stream (EOF is reaching the end
of the event list). -/
inductive StreamEvent where
  | msg (m : ImportMessage)
  | recvErr (e : String)
deriving DecidableEq, Repr

/-- `database.ImportOptions`, populated by `Service.ImportDatabase`. -/
structure ImportOptions where
  engine : String := ""
  version : String := ""
  port : String := ""
  hostname : String := ""
  databaseName : String := ""
  compressed : Bool := false
  file : String := ""
deriving DecidableEq, Repr

/-- Environment for one `ImportDatabase` call. `tempFileOk` is whether
`ioutil.TempFile` succeeds; `writeErr i` is the error of the `i`-th
`tempFile.Write` (a real `Write` never returns `io.EOF`, so the source's
`errors.Is(err, io.EOF)` escape is dead and any `some` aborts);
`portCheckErr` and `importErr` are the probe and `Importer.Import` results. -/
structure ImportEnv where
  tempFileOk : Bool
  writeErr : Nat → Option String
  portCheckErr : Option String
  importErr : Option String

/-- The outcome of one `ImportDatabase` call: the reply, whether the temp
file was created, whether it has been removed by the time the call returns
(the deferred `os.Remove`), and — when `Importer.Import` was invoked — the
options and the temp file's content at that moment. -/
structure ImportOutcome where
  reply : DbReply
  tempCreated : Bool
  tempDeleted : Bool
  importCall : Option (ImportOptions × List Nat)
deriving Repr

/-- The option-population block run on the first stream message: each field
is guarded by an emptiness test on the freshly created options value. -/
def optsFromFirst (file : String) (first : ImportMessage) : ImportOptions :=
  let opts : ImportOptions := { file := file }
  let opts := if opts.engine = "" then { opts with engine := first.database.engine } else opts
  let opts := if opts.version = "" then { opts with version := first.database.version } else opts
  let opts := if opts.port = "" then { opts with port := first.database.port } else opts
  let opts := if opts.hostname = "" then { opts with hostname := first.database.hostname } else opts
  let opts :=
    if opts.databaseName = "" then { opts with databaseName := first.database.database } else opts
  let opts :=
    if (!opts.compressed) && first.database.compressed then
      { opts with compressed := first.database.compressed }
    else opts
  opts

/-- The receive/write loop of `Service.ImportDatabase`: after the first
message, each received message's payload is appended to the temp file; a
receive error or a write error aborts the call. -/
def importLoop (env : ImportEnv) : List StreamEvent → Nat → List Nat → Except String (List Nat)
  | [], _, content => .ok content
  | .recvErr e :: _, _, _ => .error ("unable to create the stream: " ++ e)
  | .msg m :: rest, i, content =>
      match env.writeErr i with
      | some _ => .error "unable to write content to the temp file"
      | none => importLoop env rest (i + 1) (content ++ m.data)

/-- `Service.ImportDatabase`: create the temp file (its removal is deferred
from that point on), receive the first message and populate the options from
it — its `data` payload is not written — then run the receive/write loop,
gate on the TCP probe (no probe error rejects the import), and hand the
options and accumulated file to the importer. -/
def importDatabase (stream : List StreamEvent) (env : ImportEnv) : ImportOutcome :=
  if env.tempFileOk then
    match stream with
    | [] =>
        { reply := .err "unable to receive from stream: EOF",
          tempCreated := true, tempDeleted := true, importCall := none }
    | .recvErr e :: _ =>
        { reply := .err ("unable to receive from stream: " ++ e),
          tempCreated := true, tempDeleted := true, importCall := none }
    | .msg first :: rest =>
        let opts := optsFromFirst "nitro-db-import" first
        match importLoop env rest 0 [] with
        | .error msg =>
            { reply := .err msg,
              tempCreated := true, tempDeleted := true, importCall := none }
        | .ok content =>
            match env.portCheckErr with
            | none =>
                { reply := .err (connectivityErrMsg opts.hostname opts.port),
                  tempCreated := true, tempDeleted := true, importCall := none }
            | some _ =>
                match env.importErr with
                | some e =>
                    { reply := .err ("error importing the database " ++ e),
                      tempCreated := true, tempDeleted := true,
                      importCall := some (opts, content) }
                | none =>
                    { reply := .ok ("Imported database \x22" ++ opts.databaseName ++ "\x22"),
                      tempCreated := true, tempDeleted := true,
                      importCall := some (opts, content) }
  else
    { reply := .err "Unable creating a temp file for the upload",
      tempCreated := false, tempDeleted := false, importCall := none }

/-- The receive/write loop on an error-free stream of messages appends the
payloads of those messages, in arrival order, to the accumulated content. -/
theorem importLoop_ok (env : ImportEnv) (hw : ∀ i, env.writeErr i = none) :
    ∀ (msgs : List ImportMessage) (i : Nat) (acc : List Nat),
      importLoop env (msgs.map StreamEvent.msg) i acc
        = .ok (acc ++ (msgs.map ImportMessage.data).flatten) := by
  intro msgs
  induction msgs with
  | nil => intro i acc; simp [importLoop]
  | cons m rest ih =>
      intro i acc
      simp [importLoop, hw i, ih, List.append_assoc]

/-- C2: when the TCP probe to `(hostname, port)` returns no error (the dial
succeeded), `AddDatabase` and `RemoveDatabase` return the connectivity error
with an empty process trace, and `ImportDatabase` never invokes the importer
and never replies with success; on a well-formed stream its reply is exactly
the connectivity error. -/
theorem reachability_gate_blocks (req : DatabaseInfo) (env : DbEnv)
    (stream : List StreamEvent) (ienv : ImportEnv)
    (hgate : env.portCheckErr = none) (higate : ienv.portCheckErr = none) :
    addDatabase req env = (.err (connectivityErrMsg req.hostname req.port), []) ∧
    removeDatabase req env = (.err (connectivityErrMsg req.hostname req.port), []) ∧
    (importDatabase stream ienv).importCall = none ∧
    (∀ m, (importDatabase stream ienv).reply ≠ .ok m) ∧
    (∀ (first : ImportMessage) (msgs : List ImportMessage),
        ienv.tempFileOk = true → (∀ i, ienv.writeErr i = none) →
        stream = .msg first :: msgs.map StreamEvent.msg →
        (importDatabase stream ienv).reply =
          .err (connectivityErrMsg (optsFromFirst "nitro-db-import" first).hostname
                  (optsFromFirst "nitro-db-import" first).port)) := by
  have key : (importDatabase stream ienv).importCall = none ∧
      ∀ m, (importDatabase stream ienv).reply ≠ .ok m := by
    cases ht : ienv.tempFileOk with
    | false => simp [importDatabase, ht]
    | true =>
        cases stream with
        | nil => simp [importDatabase, ht]
        | cons ev rest =>
            cases ev with
            | recvErr e => simp [importDatabase, ht]
            | msg first =>
                cases hloop : importLoop ienv rest 0 [] with
                | error msg => simp [importDatabase, ht, hloop]
                | ok content => simp [importDatabase, ht, hloop, higate]
  refine ⟨?_, ?_, key.1, key.2, ?_⟩
  · simp [addDatabase, hgate]
  · simp [removeDatabase, hgate]
  · intro first msgs ht hw hstream
    subst hstream
    simp [importDatabase, ht, importLoop_ok ienv hw msgs 0 [], higate]

/-- C2 witness: with an open port (probe error `none`), the concrete mysql
target is rejected with the connectivity error, zero processes run, and
importing over a one-chunk stream never reaches the importer. -/
theorem reachability_gate_blocks_witness :
    addDatabase ⟨"mysql", "8.0", "db.nitro", "3306", "shop", false⟩
        ⟨none, Except.ok "mysql", fun _ => none⟩
      = (.err (connectivityErrMsg "db.nitro" "3306"), []) ∧
    removeDatabase ⟨"mysql", "8.0", "db.nitro", "3306", "shop", false⟩
        ⟨none, Except.ok "mysql", fun _ => none⟩
      = (.err (connectivityErrMsg "db.nitro" "3306"), []) ∧
    (importDatabase [.msg ⟨⟨"mysql", "8.0", "db.nitro", "3306", "shop", false⟩, [7]⟩]
        ⟨true, fun _ => none, none, none⟩).importCall = none := by
  have h := reachability_gate_blocks ⟨"mysql", "8.0", "db.nitro", "3306", "shop", false⟩
    ⟨none, Except.ok "mysql", fun _ => none⟩
    [.msg ⟨⟨"mysql", "8.0", "db.nitro", "3306", "shop", false⟩, [7]⟩]
    ⟨true, fun _ => none, none, none⟩ rfl rfl
  exact ⟨h.1, h.2.1, h.2.2.1⟩

/-- C3 evidence: on a mysql `AddDatabase` that passes the gate and whose
create command succeeds, the second executed command is byte-for-byte the
same `CREATE DATABASE IF NOT EXISTS` invocation as the first; the grant
command the claim requires (built elsewhere, in `prompt.CreateDatabase`)
never appears in the trace. -/
theorem addDatabase_grant_step_is_create_repeat :
    (addDatabase ⟨"mysql", "8.0", "db.nitro", "3306", "shop", false⟩
        ⟨some "connection refused", Except.ok "mysql", fun _ => none⟩).2 =
      [⟨"mysql", ["--user=nitro", "--host=db.nitro", "-pnitro",
                  "-e CREATE DATABASE IF NOT EXISTS shop;"]⟩,
       ⟨"mysql", ["--user=nitro", "--host=db.nitro", "-pnitro",
                  "-e CREATE DATABASE IF NOT EXISTS shop;"]⟩] ∧
    (⟨"mysql", ["-uroot", "-pnitro",
        "-e GRANT ALL PRIVILEGES ON * TO \x27nitro\x27@\x27%\x27;"]⟩ : ExecCall) ∉
      (addDatabase ⟨"mysql", "8.0", "db.nitro", "3306", "shop", false⟩
        ⟨some "connection refused", Except.ok "mysql", fun _ => none⟩).2 ∧
    promptMysqlPrivilegesCmd =
      ["mysql", "-uroot", "-pnitro",
       "-e GRANT ALL PRIVILEGES ON * TO \x27nitro\x27@\x27%\x27;"] := by
  refine ⟨rfl, by decide, rfl⟩

/-- C7: whenever the temporary file was successfully created, it has been
removed again by the time `ImportDatabase` returns, on every exit path. -/
theorem importDatabase_temp_cleanup (stream : List StreamEvent) (env : ImportEnv)
    (h : env.tempFileOk = true) :
    (importDatabase stream env).tempCreated = true ∧
    (importDatabase stream env).tempDeleted = true := by
  cases stream with
  | nil => simp [importDatabase, h]
  | cons ev rest =>
      cases ev with
      | recvErr e => simp [importDatabase, h]
      | msg first =>
          cases hloop : importLoop env rest 0 [] with
          | error msg => simp [importDatabase, h, hloop]
          | ok content =>
              cases hpc : env.portCheckErr with
              | none => simp [importDatabase, h, hloop, hpc]
              | some e =>
                  cases hie : env.importErr with
                  | none => simp [importDatabase, h, hloop, hpc, hie]
                  | some e2 => simp [importDatabase, h, hloop, hpc, hie]

/-- C7 witness: on each kind of exit path at concrete inputs — success,
mid-stream receive error, write error, failed gate, failed import — the temp
file is deleted. -/
theorem importDatabase_temp_cleanup_witness :
    (importDatabase [.msg ⟨⟨"mysql", "8.0", "db.nitro", "3306", "shop", false⟩, [1]⟩]
        ⟨true, fun _ => none, some "refused", none⟩).tempDeleted = true ∧
    (importDatabase [.recvErr "io closed"] ⟨true, fun _ => none, some "refused", none⟩).tempDeleted
      = true ∧
    (importDatabase [.msg ⟨⟨"mysql", "8.0", "db.nitro", "3306", "shop", false⟩, [1]⟩,
                     .msg ⟨⟨"", "", "", "", "", false⟩, [2]⟩]
        ⟨true, fun _ => some "disk full", some "refused", none⟩).tempDeleted = true ∧
    (importDatabase [.msg ⟨⟨"mysql", "8.0", "db.nitro", "3306", "shop", false⟩, [1]⟩]
        ⟨true, fun _ => none, none, none⟩).tempDeleted = true ∧
    (importDatabase [.msg ⟨⟨"mysql", "8.0", "db.nitro", "3306", "shop", false⟩, [1]⟩]
        ⟨true, fun _ => none, some "refused", some "bad dump"⟩).tempDeleted = true :=
  ⟨(importDatabase_temp_cleanup _ _ rfl).2, (importDatabase_temp_cleanup _ _ rfl).2,
   (importDatabase_temp_cleanup _ _ rfl).2, (importDatabase_temp_cleanup _ _ rfl).2,
   (importDatabase_temp_cleanup _ _ rfl).2⟩

/-- C1 counterexample: a stream whose first message carries both the
database fields and a data payload `[1]`, followed by one chunk `[2]`,
reaches the importer with file content `[2]` — not `[1] ++ [2]` as the
claim states: the first message's payload is never written. -/
theorem importDatabase_drops_first_payload :
    (importDatabase [.msg ⟨⟨"mysql", "5.7", "db.nitro", "3306", "shop", false⟩, [1]⟩,
                     .msg ⟨⟨"", "", "", "", "", false⟩, [2]⟩]
        ⟨true, fun _ => none, some "refused", none⟩).importCall =
      some (⟨"mysql", "5.7", "3306", "db.nitro", "shop", false, "nitro-db-import"⟩, [2]) ∧
    ([2] : List Nat) ≠ [1] ++ [2] :=
  ⟨rfl, by decide⟩

/-- C1 amended: the `DatabaseTarget` fields handed to the importer come from
the first stream message only, and the temp file content at import time is
the concatenation, in arrival order, of the data payloads of the messages
after the first — the first message's payload is not written. -/
theorem importDatabase_accumulates_after_first (first : ImportMessage)
    (msgs : List ImportMessage) (env : ImportEnv) (e : String)
    (ht : env.tempFileOk = true) (hw : ∀ i, env.writeErr i = none)
    (hp : env.portCheckErr = some e) :
    (importDatabase (.msg first :: msgs.map StreamEvent.msg) env).importCall =
      some (optsFromFirst "nitro-db-import" first, (msgs.map ImportMessage.data).flatten) ∧
    (optsFromFirst "nitro-db-import" first).engine = first.database.engine ∧
    (optsFromFirst "nitro-db-import" first).version = first.database.version ∧
    (optsFromFirst "nitro-db-import" first).hostname = first.database.hostname ∧
    (optsFromFirst "nitro-db-import" first).port = first.database.port ∧
    (optsFromFirst "nitro-db-import" first).databaseName = first.database.database ∧
    (optsFromFirst "nitro-db-import" first).compressed = first.database.compressed := by
  refine ⟨?_, ?_, ?_, ?_, ?_, ?_, ?_⟩
  · cases hie : env.importErr with
    | none => simp [importDatabase, ht, hp, hie, importLoop_ok env hw msgs 0 []]
    | some e2 => simp [importDatabase, ht, hp, hie, importLoop_ok env hw msgs 0 []]
  · cases hc : first.database.compressed <;> simp [optsFromFirst, hc]
  · cases hc : first.database.compressed <;> simp [optsFromFirst, hc]
  · cases hc : first.database.compressed <;> simp [optsFromFirst, hc]
  · cases hc : first.database.compressed <;> simp [optsFromFirst, hc]
  · cases hc : first.database.compressed <;> simp [optsFromFirst, hc]
  · cases hc : first.database.compressed <;> simp [optsFromFirst, hc]

/-- C1 amended witness: at a concrete two-chunk stream the importer sees the
first message's database fields and the concatenation of the later chunks. -/
theorem importDatabase_accumulates_after_first_witness :
    (importDatabase [.msg ⟨⟨"mysql", "5.7", "db.nitro", "3306", "shop", true⟩, []⟩,
                     .msg ⟨⟨"", "", "", "", "", false⟩, [10, 11]⟩,
                     .msg ⟨⟨"", "", "", "", "", false⟩, [12]⟩]
        ⟨true, fun _ => none, some "refused", none⟩).importCall =
      some (optsFromFirst "nitro-db-import"
              ⟨⟨"mysql", "5.7", "db.nitro", "3306", "shop", true⟩, []⟩, [10, 11, 12]) := by
  have h := importDatabase_accumulates_after_first
    ⟨⟨"mysql", "5.7", "db.nitro", "3306", "shop", true⟩, []⟩
    [⟨⟨"", "", "", "", "", false⟩, [10, 11]⟩, ⟨⟨"", "", "", "", "", false⟩, [12]⟩]
    ⟨true, fun _ => none, some "refused", none⟩ "refused" rfl (fun _ => rfl) rfl
  simpa using h.1

/-! ## Proxy container lifecycle (`pkg/proxycontainer`)

`Create` and `FindAndStart` talk to the Docker engine; the engine's answers
are an environment record and every engine call the code makes is recorded
in a trace.  The trace call vocabulary includes `containerRemove` — present
in the engine API the package imports — so that "never deletes the proxy
container" is statable: the embedded functions must be seen never to emit
it. -/

/-- One entry of the engine's container list (`types.Container`: ID, names,
state). -/
structure ContainerSummary where
  id : String
  names : List String
  state : String
deriving DecidableEq, Repr

/-- The parts of the `ContainerCreate` request the claims speak about. -/
structure CreateConfig where
  image : String
  exposedPorts : List String
  portBindings : List (String × String × String)
  volumeName : String
  volumeTarget : String
  networkID : String
  containerName : String
deriving DecidableEq, Repr

/-- A call made to the Docker engine. -/
inductive DockerCall where
  | imageListQ
  | imagePull (image : String)
  | containerListQ
  | containerCreate (cfg : CreateConfig)
  | containerStart (id : String)
  | containerRemove (id : String)
deriving DecidableEq, Repr

/-- Environment for the lifecycle functions: `development` is
`NITRO_DEVELOPMENT == "true"`; the three `...PortEnv` fields are the raw
values of `NITRO_HTTP_PORT`, `NITRO_HTTPS_PORT`, `NITRO_API_PORT` (`""`
when unset); `validPort` is whether `nat.NewPort` accepts a port number;
the remaining fields are the engine's answers. -/
structure DockerEnv where
  version : String
  development : Bool
  imageListResult : Except String (List String)
  imagePullResult : Except String Unit
  containerListResult : Except String (List ContainerSummary)
  httpPortEnv : String
  httpsPortEnv : String
  apiPortEnv : String
  validPort : String → Bool
  createResult : Except String String
  startErr : Option String

/-- `proxycontainer.ProxyImage`. -/
def proxyImage (version : String) : String := "craftcms/nitro-proxy:" ++ version

/-- `nat.NewPort("tcp", num)`: the port string `num/tcp`, or an error for an
unparsable number. -/
def natNewPort (valid : String → Bool) (proto num : String) : Except String String :=
  if valid num then .ok (num ++ "/" ++ proto) else .error ("invalid port " ++ num)

/-- The HTTP port switch of `Create`: default `80`, overridden by
`NITRO_HTTP_PORT`; a `NewPort` failure is fatal. -/
def httpPortOf (env : DockerEnv) : Except String String :=
  if env.httpPortEnv = "" then
    match natNewPort env.validPort "tcp" "80" with
    | .error e => .error ("unable to set the HTTP port, " ++ e)
    | .ok p => .ok p
  else
    match natNewPort env.validPort "tcp" env.httpPortEnv with
    | .error e => .error ("unable to set the HTTP port, " ++ e)
    | .ok p => .ok p

/-- The HTTPS port switch of `Create`: default `443`; in the override branch
the Go source discards the `NewPort` error (`httpsPort, _ = ...`) and
re-checks the stale nil `err`, so an invalid override falls through with the
zero `nat.Port` value instead of failing. -/
def httpsPortOf (env : DockerEnv) : Except String String :=
  if env.httpsPortEnv = "" then
    match natNewPort env.validPort "tcp" "443" with
    | .error e => .error ("unable to set the HTTPS port, " ++ e)
    | .ok p => .ok p
  else
    .ok (match natNewPort env.validPort "tcp" env.httpsPortEnv with
         | .ok p => p
         | .error _ => "")

/-- The API port switch of `Create`: default `5000`, overridden by
`NITRO_API_PORT`; a `NewPort` failure is fatal. -/
def apiPortOf (env : DockerEnv) : Except String String :=
  if env.apiPortEnv = "" then
    match natNewPort env.validPort "tcp" "5000" with
    | .error e => .error ("unable to set the API port, " ++ e)
    | .ok p => .ok p
  else
    match natNewPort env.validPort "tcp" env.apiPortEnv with
    | .error e => .error ("unable to set the API port, " ++ e)
    | .ok p => .ok p

/-- Whether a container-list name is the proxy's. -/
def isProxy (n : String) : Bool := n == "nitro-proxy" || n == "/nitro-proxy"

/-- Whether a listed container carries the proxy's name. -/
def hasProxyName (c : ContainerSummary) : Bool := c.names.any isProxy

/-- The double loop of `Create` over the listed containers and their names:
each name match overwrites `containerID` with that container's ID and ORs
`proxyRunning` with whether that container's state is `running`. -/
def scanContainers (cs : List ContainerSummary) : String × Bool :=
  cs.foldl
    (fun acc c =>
      c.names.foldl
        (fun acc2 n =>
          if isProxy n then (c.id, acc2.2 || (c.state == "running")) else acc2)
        acc)
    ("", false)

/-- The image phase of `Create`: skipped entirely under the
`NITRO_DEVELOPMENT` override; otherwise list matching images and pull the
proxy image when none is present. -/
def imagePhase (env : DockerEnv) : Except String Unit × List DockerCall :=
  if env.development then (.ok (), [])
  else
    match env.imageListResult with
    | .error e => (.error ("unable to get a list of images, " ++ e), [.imageListQ])
    | .ok images =>
        if images.length = 0 then
          match env.imagePullResult with
          | .error e =>
              (.error ("unable to pull the nitro-proxy from docker hub, " ++ e),
               [.imageListQ, .imagePull (proxyImage env.version)])
          | .ok _ => (.ok (), [.imageListQ, .imagePull (proxyImage env.version)])
        else (.ok (), [.imageListQ])

/-- The final start step of `Create` (`if !proxyRunning { ContainerStart }`). -/
def startPhase (env : DockerEnv) (cid : String) (proxyRunning : Bool) :
    Except String Unit × List DockerCall :=
  if proxyRunning then (.ok (), [])
  else
    match env.startErr with
    | some e => (.error ("unable to start the nitro container, " ++ e), [.containerStart cid])
    | none => (.ok (), [.containerStart cid])

/-- The creation block of `Create` (lines computing the three ports and
issuing `ContainerCreate`): returns the new container's ID, or the fatal
error of a port switch, the create call itself failing, together with the
calls made. -/
def createPhase (env : DockerEnv) (volumeName networkID : String) :
    Except String String × List DockerCall :=
  match httpPortOf env with
  | .error e => (.error e, [])
  | .ok httpPort =>
    match httpsPortOf env with
    | .error e => (.error e, [])
    | .ok httpsPort =>
      match apiPortOf env with
      | .error e => (.error e, [])
      | .ok apiPort =>
        let cfg : CreateConfig :=
          { image := proxyImage env.version,
            exposedPorts := [httpPort, httpsPort, apiPort],
            portBindings := [(httpPort, "127.0.0.1", "80"),
                             (httpsPort, "127.0.0.1", "443"),
                             (apiPort, "127.0.0.1", "5000")],
            volumeName := volumeName,
            volumeTarget := "/data",
            networkID := networkID,
            containerName := "nitro-proxy" }
        match env.createResult with
        | .error e =>
            (.error ("unable to create the container from image "
                       ++ proxyImage env.version ++ " " ++ e),
             [.containerCreate cfg])
        | .ok newID => (.ok newID, [.containerCreate cfg])

/-- `proxycontainer.Create`: image phase, container listing and scan,
creation when no container named `nitro-proxy` was found, then the start
step. -/
def createProxy (env : DockerEnv) (volumeName networkID : String) :
    Except String Unit × List DockerCall :=
  match imagePhase env with
  | (.error e, tr) => (.error e, tr)
  | (.ok _, tr) =>
    match env.containerListResult with
    | .error e => (.error ("unable to list the containers " ++ e), tr ++ [.containerListQ])
    | .ok cs =>
      let scan := scanContainers cs
      if scan.1 = "" then
        match createPhase env volumeName networkID with
        | (.error e, tr2) => (.error e, tr ++ [.containerListQ] ++ tr2)
        | (.ok newID, tr2) =>
            let fin := startPhase env newID scan.2
            (fin.1, tr ++ [.containerListQ] ++ tr2 ++ fin.2)
      else
        let fin := startPhase env scan.1 scan.2
        (fin.1, tr ++ [.containerListQ] ++ fin.2)

/-- The outcome of `proxycontainer.FindAndStart`: a found container, the
distinguished `ErrNoProxyContainer`, or a hard failure. -/
inductive FindOutcome where
  | found (c : ContainerSummary)
  | noProxy
  | failed (e : String)
deriving DecidableEq, Repr

/-- The container loop of `FindAndStart`: the first container carrying the
proxy's name is started when not running and returned. -/
def findLoop (startErr : Option String) :
    List ContainerSummary → FindOutcome × List DockerCall
  | [] => (.noProxy, [])
  | c :: rest =>
      if hasProxyName c then
        if c.state = "running" then (.found c, [])
        else
          match startErr with
          | some e => (.failed ("unable to start the proxy container: " ++ e),
                       [.containerStart c.id])
          | none => (.found c, [.containerStart c.id])
      else findLoop startErr rest

/-- `proxycontainer.FindAndStart`. -/
def findAndStart (env : DockerEnv) : FindOutcome × List DockerCall :=
  match env.containerListResult with
  | .error e => (.failed ("unable to list the containers: " ++ e), [.containerListQ])
  | .ok cs =>
      let r := findLoop env.startErr cs
      (r.1, .containerListQ :: r.2)

/-! ### Scan lemmas -/

/-- The inner name loop of the scan: with no proxy name it leaves the
accumulator alone, with at least one it records this container's ID and ORs
in its running state. -/
theorem scan_inner (c : ContainerSummary) :
    ∀ (ns : List String) (acc : String × Bool),
      ns.foldl
          (fun acc2 n => if isProxy n then (c.id, acc2.2 || (c.state == "running")) else acc2)
          acc
        = if ns.any isProxy then (c.id, acc.2 || (c.state == "running")) else acc := by
  intro ns
  induction ns with
  | nil => intro acc; simp
  | cons n rest ih =>
      intro acc
      by_cases hn : isProxy n
      · simp only [List.foldl, List.any_cons, hn, if_true, Bool.true_or, ih]
        by_cases hr : rest.any isProxy = true <;>
          simp [hr, Bool.or_assoc]
      · simp only [List.foldl, List.any_cons, hn, if_false, ih]
        simp [hn]

/-- The container scan ignores containers without the proxy name. -/
theorem scan_skip (cs : List ContainerSummary)
    (h : ∀ c ∈ cs, hasProxyName c = false) :
    ∀ acc : String × Bool,
      cs.foldl
          (fun acc c =>
            c.names.foldl
              (fun acc2 n => if isProxy n then (c.id, acc2.2 || (c.state == "running")) else acc2)
              acc)
          acc = acc := by
  induction cs with
  | nil => intro acc; simp
  | cons d rest ih =>
      intro acc
      have hd : d.names.any isProxy = false := h d (by simp)
      simp only [List.foldl_cons]
      rw [scan_inner, hd, if_neg (by simp)]
      exact ih (fun c hc => h c (by simp [hc])) acc

/-- When exactly one listed container carries the proxy name, the scan
yields its ID and whether it is running. -/
theorem scan_single (cs : List ContainerSummary) (c : ContainerSummary)
    (h : cs.filter hasProxyName = [c]) :
    scanContainers cs = (c.id, c.state == "running") := by
  suffices key : ∀ (cs : List ContainerSummary), cs.filter hasProxyName = [c] →
      ∀ acc : String × Bool,
        cs.foldl
            (fun acc c =>
              c.names.foldl
                (fun acc2 n =>
                  if isProxy n then (c.id, acc2.2 || (c.state == "running")) else acc2)
                acc)
            acc = (c.id, acc.2 || (c.state == "running")) by
    simpa [scanContainers] using key cs h ("", false)
  intro cs
  induction cs with
  | nil => intro h; simp at h
  | cons d rest ih =>
      intro hfil acc
      by_cases hd : hasProxyName d = true
      · rw [List.filter_cons_of_pos hd] at hfil
        have hdc : d = c := (List.cons_eq_cons.mp hfil).1
        have hrest : rest.filter hasProxyName = [] := (List.cons_eq_cons.mp hfil).2
        subst hdc
        have hnm : ∀ x ∈ rest, hasProxyName x = false := by
          intro x hx
          by_contra hcontra
          have hmem : x ∈ rest.filter hasProxyName := by
            refine List.mem_filter.mpr ⟨hx, ?_⟩
            cases hxx : hasProxyName x with
            | true => rfl
            | false => exact absurd hxx hcontra
          rw [hrest] at hmem
          simp at hmem
        have hd2 : d.names.any isProxy = true := hd
        simp only [List.foldl_cons]
        rw [scan_inner, hd2, if_pos rfl]
        exact scan_skip rest hnm _
      · have hdf : hasProxyName d = false := by
          cases hx : hasProxyName d with
          | true => exact absurd hx hd
          | false => rfl
        rw [List.filter_cons_of_neg (by simp [hdf])] at hfil
        have hinner : d.names.any isProxy = false := hdf
        simp only [List.foldl_cons]
        rw [scan_inner, hinner, if_neg (by simp)]
        exact ih hfil acc

/-! ### The lifecycle never removes the proxy container -/

theorem imagePhase_no_remove (env : DockerEnv) (id : String) :
    DockerCall.containerRemove id ∉ (imagePhase env).2 := by
  unfold imagePhase
  cases hd : env.development
  · cases hil : env.imageListResult with
    | error e => simp
    | ok images =>
        cases himg : images.length with
        | zero => cases hip : env.imagePullResult <;> simp [himg]
        | succ n => simp [himg]
  · simp

theorem startPhase_no_remove (env : DockerEnv) (cid : String) (r : Bool) (id : String) :
    DockerCall.containerRemove id ∉ (startPhase env cid r).2 := by
  unfold startPhase
  cases r
  · cases hse : env.startErr <;> simp
  · simp

/-- The create block's calls are create calls only (zero or one of them). -/
theorem createPhase_calls (env : DockerEnv) (v n : String) :
    (createPhase env v n).2 = [] ∨
    ∃ hp hsp ap, httpPortOf env = .ok hp ∧ httpsPortOf env = .ok hsp ∧
      apiPortOf env = .ok ap ∧
      (createPhase env v n).2 = [DockerCall.containerCreate
        { image := proxyImage env.version, exposedPorts := [hp, hsp, ap],
          portBindings := [(hp, "127.0.0.1", "80"), (hsp, "127.0.0.1", "443"),
                           (ap, "127.0.0.1", "5000")],
          volumeName := v, volumeTarget := "/data", networkID := n,
          containerName := "nitro-proxy" }] := by
  unfold createPhase
  cases hhp : httpPortOf env with
  | error e => exact Or.inl rfl
  | ok hp =>
      cases hhs : httpsPortOf env with
      | error e => exact Or.inl rfl
      | ok hsp =>
          cases hap : apiPortOf env with
          | error e => exact Or.inl rfl
          | ok ap =>
              cases hcr : env.createResult with
              | error e => exact Or.inr ⟨hp, hsp, ap, rfl, rfl, rfl, rfl⟩
              | ok newID => exact Or.inr ⟨hp, hsp, ap, rfl, rfl, rfl, rfl⟩

/-- Every call in the create block's trace is a container-create call. -/
theorem createPhase_mem (env : DockerEnv) (v n : String) (x : DockerCall)
    (hx : x ∈ (createPhase env v n).2) :
    ∃ cfg, x = DockerCall.containerCreate cfg := by
  rcases createPhase_calls env v n with h | ⟨hp, hsp, ap, _, _, _, h⟩ <;> rw [h] at hx
  · simp at hx
  · simp at hx
    exact ⟨_, hx⟩

theorem createProxy_no_remove (env : DockerEnv) (v n id : String) :
    DockerCall.containerRemove id ∉ (createProxy env v n).2 := by
  unfold createProxy
  split
  case _ e tr heq =>
    have h := imagePhase_no_remove env id
    rw [heq] at h
    exact h
  case _ u tr heq =>
    have htr : DockerCall.containerRemove id ∉ tr := by
      have h := imagePhase_no_remove env id
      rw [heq] at h
      exact h
    cases hcl : env.containerListResult with
    | error e => simp [htr]
    | ok cs =>
        simp only []
        split
        · split
          case _ e2 tr2 heq2 =>
            intro hmem
            simp only [List.mem_append, List.mem_singleton] at hmem
            rcases hmem with (hmem | hmem) | hmem
            · exact htr hmem
            · cases hmem
            · obtain ⟨cfg, hcfg⟩ := createPhase_mem env v n _ (by rw [heq2]; exact hmem)
              cases hcfg
          case _ newID tr2 heq2 =>
            intro hmem
            simp only [List.mem_append, List.mem_singleton] at hmem
            rcases hmem with ((hmem | hmem) | hmem) | hmem
            · exact htr hmem
            · cases hmem
            · obtain ⟨cfg, hcfg⟩ := createPhase_mem env v n _ (by rw [heq2]; exact hmem)
              cases hcfg
            · exact startPhase_no_remove env newID _ id hmem
        · simp only [List.mem_append, List.mem_cons, List.mem_singleton]
          push_neg
          refine ⟨⟨htr, by simp⟩, ?_⟩
          intro hmem
          exact startPhase_no_remove env _ _ id hmem

theorem findLoop_no_remove (se : Option String) (cs : List ContainerSummary) (id : String) :
    DockerCall.containerRemove id ∉ (findLoop se cs).2 := by
  induction cs with
  | nil => simp [findLoop]
  | cons c rest ih =>
      unfold findLoop
      by_cases hc : hasProxyName c = true
      · rw [if_pos hc]
        by_cases hr : c.state = "running"
        · simp [hr]
        · cases hse : se <;> simp [hr]
      · rw [if_neg hc]
        exact ih

theorem findAndStart_no_remove (env : DockerEnv) (id : String) :
    DockerCall.containerRemove id ∉ (findAndStart env).2 := by
  unfold findAndStart
  cases hcl : env.containerListResult with
  | error e => simp
  | ok cs => simp [findLoop_no_remove env.startErr cs id]

/-- The image phase only ever lists or pulls images. -/
theorem imagePhase_calls (env : DockerEnv) (x : DockerCall) (hx : x ∈ (imagePhase env).2) :
    x = DockerCall.imageListQ ∨ x = DockerCall.imagePull (proxyImage env.version) := by
  unfold imagePhase at hx
  split at hx
  · simp at hx
  · split at hx
    · simp at hx; simp [hx]
    · split at hx
      · split at hx
        · simp at hx; rcases hx with h | h <;> simp [h]
        · simp at hx; rcases hx with h | h <;> simp [h]
      · simp at hx; simp [hx]

/-- The start phase's trace: empty when the proxy is already running, a
single start call otherwise. -/
theorem startPhase_calls (env : DockerEnv) (cid : String) (r : Bool) :
    (startPhase env cid r).2 = if r then [] else [DockerCall.containerStart cid] := by
  cases r
  · cases hse : env.startErr <;> simp [startPhase, hse]
  · simp [startPhase]

/-- Every call in the start phase's trace is the start of the given
container. -/
theorem startPhase_mem (env : DockerEnv) (cid : String) (r : Bool) (x : DockerCall)
    (hx : x ∈ (startPhase env cid r).2) : x = DockerCall.containerStart cid := by
  rw [startPhase_calls] at hx
  cases r
  · simpa using hx
  · simp at hx

/-- C8: the ensure operation is idempotent.  When the image phase succeeds
and the engine lists exactly one container carrying the proxy name
`nitro-proxy`, `Create` issues no container-create call, any start call it
issues targets that container's ID, and it issues a container-start call
exactly when that container's state is not `running`.  Moreover no execution
path of `Create` or `FindAndStart` — for any environment — issues a
container-remove call. -/
theorem createProxy_idempotent (env : DockerEnv) (volumeName networkID : String)
    (cs : List ContainerSummary) (c : ContainerSummary)
    (hphase : (imagePhase env).1 = .ok ())
    (hlist : env.containerListResult = .ok cs)
    (hone : cs.filter hasProxyName = [c])
    (hid : c.id ≠ "") :
    (∀ cfg, DockerCall.containerCreate cfg ∉ (createProxy env volumeName networkID).2) ∧
    (c.state ≠ "running" →
      DockerCall.containerStart c.id ∈ (createProxy env volumeName networkID).2) ∧
    (c.state = "running" →
      ∀ cid, DockerCall.containerStart cid ∉ (createProxy env volumeName networkID).2) ∧
    (∀ cid, DockerCall.containerStart cid ∈ (createProxy env volumeName networkID).2 →
      cid = c.id) ∧
    (∀ envA vA nA cid, DockerCall.containerRemove cid ∉ (createProxy envA vA nA).2) ∧
    (∀ envA cid, DockerCall.containerRemove cid ∉ (findAndStart envA).2) := by
  rcases hip : imagePhase env with ⟨r, tr⟩
  rw [hip] at hphase
  simp only at hphase
  subst hphase
  have hscan := scan_single cs c hone
  have htrace : (createProxy env volumeName networkID).2
      = tr ++ [DockerCall.containerListQ]
          ++ (startPhase env c.id (c.state == "running")).2 := by
    simp only [createProxy, hip, hlist, hscan]
    rw [if_neg hid]
  have htr_calls : ∀ x ∈ tr, x = DockerCall.imageListQ
      ∨ x = DockerCall.imagePull (proxyImage env.version) := by
    intro x hx
    exact imagePhase_calls env x (by rw [hip]; exact hx)
  have hsp := startPhase_calls env c.id (c.state == "running")
  refine ⟨?_, ?_, ?_, ?_,
    fun envA vA nA cid => createProxy_no_remove envA vA nA cid,
    fun envA cid => findAndStart_no_remove envA cid⟩
  · intro cfg hmem
    rw [htrace] at hmem
    simp only [List.mem_append, List.mem_singleton] at hmem
    rcases hmem with (hmem | hmem) | hmem
    · rcases htr_calls _ hmem with h | h <;> cases h
    · cases hmem
    · rw [hsp] at hmem
      by_cases hr : (c.state == "running") = true <;> simp [hr] at hmem
  · intro hrun
    rw [htrace, hsp]
    have : (c.state == "running") = false := by
      cases hx : c.state == "running" with
      | true => exact absurd (by simpa using hx) hrun
      | false => rfl
    rw [this]
    simp
  · intro hrun cid hmem
    rw [htrace, hsp] at hmem
    have : (c.state == "running") = true := by simp [hrun]
    rw [this] at hmem
    simp only [if_true] at hmem
    simp only [List.append_nil, List.mem_append, List.mem_singleton] at hmem
    rcases hmem with hmem | hmem
    · rcases htr_calls _ hmem with h | h <;> cases h
    · cases hmem
  · intro cid hmem
    rw [htrace, hsp] at hmem
    by_cases hr : (c.state == "running") = true
    · rw [hr] at hmem
      simp only [if_true, List.append_nil, List.mem_append, List.mem_singleton] at hmem
      rcases hmem with hmem | hmem
      · rcases htr_calls _ hmem with h | h <;> cases h
      · cases hmem
    · have : (c.state == "running") = false := by
        cases hx : c.state == "running" with
        | true => exact absurd hx hr
        | false => rfl
      rw [this] at hmem
      simp only [Bool.false_eq_true, if_false, List.mem_append, List.mem_singleton] at hmem
      rcases hmem with (hmem | hmem) | hmem
      · rcases htr_calls _ hmem with h | h <;> cases h
      · cases hmem
      · exact (DockerCall.containerStart.injEq _ _).mp hmem

/-- C8 witness: with one existing stopped `nitro-proxy` container, `Create`
issues a start call for it (and, by the theorem's other conjuncts, no
create call). -/
theorem createProxy_idempotent_witness :
    DockerCall.containerStart "abc123" ∈
      (createProxy
        ⟨"2.0.0", true, .ok [], .ok (), .ok [⟨"abc123", ["nitro-proxy"], "exited"⟩],
         "", "", "", fun _ => true, .ok "new", none⟩ "vol" "net").2 :=
  (createProxy_idempotent
    ⟨"2.0.0", true, .ok [], .ok (), .ok [⟨"abc123", ["nitro-proxy"], "exited"⟩],
     "", "", "", fun _ => true, .ok "new", none⟩ "vol" "net"
    [⟨"abc123", ["nitro-proxy"], "exited"⟩] ⟨"abc123", ["nitro-proxy"], "exited"⟩
    rfl rfl (by decide) (by decide)).2.1 (by decide)

/-- Any container-create call `Create` ever issues binds each of its ports
to host IP `127.0.0.1` and names the container `nitro-proxy`. -/
theorem createProxy_create_shape (env : DockerEnv) (v n : String) (cfg : CreateConfig)
    (h : DockerCall.containerCreate cfg ∈ (createProxy env v n).2) :
    (∀ b ∈ cfg.portBindings, b.2.1 = "127.0.0.1") ∧ cfg.containerName = "nitro-proxy" := by
  have hshape : ∀ x ∈ (createPhase env v n).2, x = DockerCall.containerCreate cfg →
      (∀ b ∈ cfg.portBindings, b.2.1 = "127.0.0.1") ∧ cfg.containerName = "nitro-proxy" := by
    intro x hx hxc
    rcases createPhase_calls env v n with hnil | ⟨hp, hsp, ap, _, _, _, htr2⟩
    · rw [hnil] at hx; simp at hx
    · rw [htr2] at hx
      simp only [List.mem_singleton] at hx
      subst hx
      cases hxc
      refine ⟨?_, rfl⟩
      intro b hb
      simp only [List.mem_cons] at hb
      rcases hb with hb | hb | hb | hb <;> first | (subst hb; rfl) | cases hb
  unfold createProxy at h
  split at h
  case _ e tr heq =>
    rcases imagePhase_calls env _ (by rw [heq]; exact h) with hx | hx <;> cases hx
  case _ u tr heq =>
    have htr : DockerCall.containerCreate cfg ∉ tr := by
      intro hmem
      rcases imagePhase_calls env _ (by rw [heq]; exact hmem) with hx | hx <;> cases hx
    cases hcl : env.containerListResult with
    | error e =>
        simp only [hcl, List.mem_append, List.mem_singleton] at h
        rcases h with h | h
        · exact absurd h htr
        · cases h
    | ok cs =>
        simp only [hcl] at h
        by_cases hsc : (scanContainers cs).1 = ""
        · rw [if_pos hsc] at h
          rcases hcp : createPhase env v n with ⟨cr, tr2⟩
          rw [hcp] at h
          have htr2s : DockerCall.containerCreate cfg ∈ tr2 →
              (∀ b ∈ cfg.portBindings, b.2.1 = "127.0.0.1") ∧
                cfg.containerName = "nitro-proxy" := by
            intro hx
            exact hshape _ (by rw [hcp]; exact hx) rfl
          cases cr with
          | error e2 =>
              simp only [List.mem_append, List.mem_singleton] at h
              rcases h with (h | h) | h
              · exact absurd h htr
              · cases h
              · exact htr2s h
          | ok newID =>
              simp only [List.mem_append, List.mem_singleton] at h
              rcases h with ((h | h) | h) | h
              · exact absurd h htr
              · cases h
              · exact htr2s h
              · cases startPhase_mem env newID _ _ h
        · rw [if_neg hsc] at h
          simp only [List.mem_append, List.mem_singleton] at h
          rcases h with (h | h) | h
          · exact absurd h htr
          · cases h
          · cases startPhase_mem env _ _ _ h

/-- C9: when the image phase succeeds and no proxy container is listed,
`Create` issues a container-create call whose three TCP ports default to
80 (HTTP), 443 (HTTPS) and 5000 (API), each individually overridden by
`NITRO_HTTP_PORT`, `NITRO_HTTPS_PORT` and `NITRO_API_PORT`, and whose port
bindings bind the three ports to host IP `127.0.0.1`; moreover every
container-create call `Create` can ever issue binds each of its ports to
host IP `127.0.0.1`. -/
theorem createProxy_port_bindings (env : DockerEnv) (volumeName networkID : String)
    (cs : List ContainerSummary)
    (hphase : (imagePhase env).1 = .ok ())
    (hlist : env.containerListResult = .ok cs)
    (hnone : ∀ x ∈ cs, hasProxyName x = false)
    (hv80 : env.validPort "80" = true) (hv443 : env.validPort "443" = true)
    (hv5000 : env.validPort "5000" = true)
    (hvh : env.httpPortEnv ≠ "" → env.validPort env.httpPortEnv = true)
    (hvs : env.httpsPortEnv ≠ "" → env.validPort env.httpsPortEnv = true)
    (hva : env.apiPortEnv ≠ "" → env.validPort env.apiPortEnv = true) :
    DockerCall.containerCreate
      { image := proxyImage env.version,
        exposedPorts :=
          [(if env.httpPortEnv = "" then "80" else env.httpPortEnv) ++ "/tcp",
           (if env.httpsPortEnv = "" then "443" else env.httpsPortEnv) ++ "/tcp",
           (if env.apiPortEnv = "" then "5000" else env.apiPortEnv) ++ "/tcp"],
        portBindings :=
          [((if env.httpPortEnv = "" then "80" else env.httpPortEnv) ++ "/tcp",
            "127.0.0.1", "80"),
           ((if env.httpsPortEnv = "" then "443" else env.httpsPortEnv) ++ "/tcp",
            "127.0.0.1", "443"),
           ((if env.apiPortEnv = "" then "5000" else env.apiPortEnv) ++ "/tcp",
            "127.0.0.1", "5000")],
        volumeName := volumeName, volumeTarget := "/data",
        networkID := networkID, containerName := "nitro-proxy" }
      ∈ (createProxy env volumeName networkID).2 ∧
    (∀ envA vA nA cfg, DockerCall.containerCreate cfg ∈ (createProxy envA vA nA).2 →
       ∀ b ∈ cfg.portBindings, b.2.1 = "127.0.0.1") := by
  have hhp : httpPortOf env
      = .ok ((if env.httpPortEnv = "" then "80" else env.httpPortEnv) ++ "/tcp") := by
    by_cases hh : env.httpPortEnv = ""
    · simp [httpPortOf, hh, natNewPort, hv80]
    · simp [httpPortOf, hh, natNewPort, hvh hh, String.append_assoc]
  have hhs : httpsPortOf env
      = .ok ((if env.httpsPortEnv = "" then "443" else env.httpsPortEnv) ++ "/tcp") := by
    by_cases hh : env.httpsPortEnv = ""
    · simp [httpsPortOf, hh, natNewPort, hv443]
    · simp [httpsPortOf, hh, natNewPort, hvs hh, String.append_assoc]
  have hap : apiPortOf env
      = .ok ((if env.apiPortEnv = "" then "5000" else env.apiPortEnv) ++ "/tcp") := by
    by_cases hh : env.apiPortEnv = ""
    · simp [apiPortOf, hh, natNewPort, hv5000]
    · simp [apiPortOf, hh, natNewPort, hva hh, String.append_assoc]
  have hscan : scanContainers cs = ("", false) := by
    simpa [scanContainers] using scan_skip cs hnone ("", false)
  rcases hip : imagePhase env with ⟨r, tr⟩
  rw [hip] at hphase
  simp only at hphase
  subst hphase
  constructor
  · cases hcr : env.createResult with
    | error e =>
        simp [createProxy, hip, hlist, hscan, createPhase, hhp, hhs, hap, hcr]
    | ok newID =>
        simp [createProxy, hip, hlist, hscan, createPhase, hhp, hhs, hap, hcr,
          startPhase_calls]
  · intro envA vA nA cfg hcfg
    exact (createProxy_create_shape envA vA nA cfg hcfg).1

/-- C9 witness: with `NITRO_HTTP_PORT=8080` and `NITRO_API_PORT=7000` set
and `NITRO_HTTPS_PORT` unset, the create call exposes `8080/tcp`, `443/tcp`
and `7000/tcp`, each bound to `127.0.0.1`. -/
theorem createProxy_port_bindings_witness :
    DockerCall.containerCreate
      { image := proxyImage "2.0.0",
        exposedPorts := ["8080/tcp", "443/tcp", "7000/tcp"],
        portBindings := [("8080/tcp", "127.0.0.1", "80"), ("443/tcp", "127.0.0.1", "443"),
                         ("7000/tcp", "127.0.0.1", "5000")],
        volumeName := "vol", volumeTarget := "/data", networkID := "net",
        containerName := "nitro-proxy" }
      ∈ (createProxy
          ⟨"2.0.0", true, .ok [], .ok (), .ok [], "8080", "", "7000",
           fun _ => true, .ok "new", none⟩ "vol" "net").2 := by
  have h := (createProxy_port_bindings
    ⟨"2.0.0", true, .ok [], .ok (), .ok [], "8080", "", "7000",
     fun _ => true, .ok "new", none⟩ "vol" "net" [] rfl rfl (by simp)
    rfl rfl rfl (fun _ => rfl) (fun _ => rfl) (fun _ => rfl)).1
  simpa using h

end Nitro
